import Mathlib

/-!
# Shallow embedding of the invoicerecon reconciliation core

This file embeds the matching and discrepancy-detection engine of the
repository (apps/reconciliation/services/matcher.py,
apps/reconciliation/services/reporter.py, apps/reconciliation/models.py,
apps/invoices/models.py, apps/integrations/models.py) and proves or refutes
the frozen claims about it.

Modelling conventions:
* Python `Decimal` and `float` values are modelled as exact rationals `ℚ`;
  Python truthiness of a numeric value is `≠ 0`, of a string is `≠ ""`,
  of an optional date is `Option.isSome`.
* Dates are abstracted to `Nat` (only equality of dates is ever used).
* Text is modelled as `String` / `List Char`.
-/

/- ## The similarity scorer

`ReconciliationMatcher._similar` calls Python's
`difflib.SequenceMatcher(None, a, b).ratio()`.  The embedding below follows
difflib: `__chain_b` (with autojunk, and with an empty junk set since no
`isjunk` argument is passed), `find_longest_match`, the divide-and-conquer of
`get_matching_blocks` (only the total matched size is needed for `ratio`, and
that total is invariant under the final sort/merge of blocks, which is
therefore omitted), and `_calculate_ratio`. -/

/-- Python `str.lower()` on a list of characters (ASCII-adequate model). -/
def pyLower (s : List Char) : List Char := s.map Char.toLower

/-- Python `str.strip()`: drop leading and trailing whitespace. -/
def pyStrip (s : List Char) : List Char :=
  ((s.dropWhile Char.isWhitespace).reverse.dropWhile Char.isWhitespace).reverse

/-- difflib `_calculate_ratio(matches, length)`: `2*M/T`, defined as `1.0` when
the combined length `T` is zero (two empty sequences). -/
def calcRatioQ (m t : Nat) : ℚ :=
  if t ≠ 0 then 2 * (m : ℚ) / (t : ℚ) else 1

/-- Append position `i` to the index list of character `c`
(the `b2j.setdefault(elt, []).append(i)` of difflib `__chain_b`). -/
def b2jAdd (m : List (Char × List Nat)) (c : Char) (i : Nat) : List (Char × List Nat) :=
  match m with
  | [] => [(c, [i])]
  | (d, js) :: rest => if d = c then (d, js ++ [i]) :: rest else (d, js) :: b2jAdd rest c i

/-- difflib `__chain_b` for `SequenceMatcher(None, a, b)`: positions of each
character of `b`; with autojunk, when `b` has at least 200 characters the
characters occurring more than `len(b)//100 + 1` times are removed from the
index.  No `isjunk` is supplied, so `bjunk` is empty. -/
def chainB (b : List Char) : List (Char × List Nat) :=
  let base := b.enum.foldl (fun m p => b2jAdd m p.2 p.1) []
  if 200 ≤ b.length then
    base.filter (fun p => !(decide (b.length / 100 + 1 < p.2.length)))
  else base

/-- `b2j.get(c, [])`. -/
def b2jGet (m : List (Char × List Nat)) (c : Char) : List Nat :=
  match m with
  | [] => []
  | (d, js) :: rest => if d = c then js else b2jGet rest c

/-- `j2len.get(j, 0)`. -/
def j2Get (m : List (Nat × Nat)) (j : Nat) : Nat :=
  match m with
  | [] => 0
  | (k, v) :: rest => if k = j then v else j2Get rest j

/-- State of difflib `find_longest_match`: `besti, bestj, bestsize`. -/
structure FlmState where
  besti : Nat
  bestj : Nat
  bestsize : Nat
deriving DecidableEq, Repr

/-- Inner loop of `find_longest_match` over the positions `j` of `a[i]` in `b`
(ascending): `continue` below `blo`, `break` at `bhi`, otherwise extend the
chain ending at `j-1` and track the best block.  `j2len.get(j-1, 0)` is `0`
when `j = 0` (Python looks up key `-1`). -/
def flmInner (blo bhi i : Nat) (j2len : List (Nat × Nat)) :
    List Nat → List (Nat × Nat) → FlmState → List (Nat × Nat) × FlmState
  | [], acc, st => (acc, st)
  | j :: js, acc, st =>
    if j < blo then flmInner blo bhi i j2len js acc st
    else if bhi ≤ j then (acc, st)
    else
      let k := (if j = 0 then 0 else j2Get j2len (j - 1)) + 1
      let st' := if st.bestsize < k then FlmState.mk (i + 1 - k) (j + 1 - k) k else st
      flmInner blo bhi i j2len js ((j, k) :: acc) st'

/-- Outer loop of `find_longest_match` over `i` in `[alo, ahi)`; the `j2len`
dictionary of one iteration becomes the input of the next, starting empty. -/
def flmOuter (a : List Char) (b2j : List (Char × List Nat)) (alo ahi blo bhi : Nat) :
    FlmState :=
  (((List.range (ahi - alo)).map (fun t => alo + t)).foldl
    (fun (acc : List (Nat × Nat) × FlmState) i =>
      flmInner blo bhi i acc.1 (b2jGet b2j (a.getD i 'A')) [] acc.2)
    ([], FlmState.mk alo blo 0)).2

/-- The first `while` of `find_longest_match`: extend the block backwards over
equal characters.  `bjunk` is empty here, so the junk test is dropped.  The
fuel decreases each step while `besti` does too, so fuel `besti` is exact. -/
def extendBack (a b : List Char) (alo blo : Nat) : Nat → FlmState → FlmState
  | 0, st => st
  | fuel + 1, st =>
    if alo < st.besti ∧ blo < st.bestj ∧
        a.getD (st.besti - 1) 'A' = b.getD (st.bestj - 1) 'A' then
      extendBack a b alo blo fuel (FlmState.mk (st.besti - 1) (st.bestj - 1) (st.bestsize + 1))
    else st

/-- The second `while` of `find_longest_match`: extend the block forwards over
equal characters (empty `bjunk` again).  Fuel `ahi` is exact since
`besti + bestsize` grows towards `ahi` each step. -/
def extendFwd (a b : List Char) (ahi bhi : Nat) : Nat → FlmState → FlmState
  | 0, st => st
  | fuel + 1, st =>
    if st.besti + st.bestsize < ahi ∧ st.bestj + st.bestsize < bhi ∧
        a.getD (st.besti + st.bestsize) 'A' = b.getD (st.bestj + st.bestsize) 'A' then
      extendFwd a b ahi bhi fuel (FlmState.mk st.besti st.bestj (st.bestsize + 1))
    else st

/-- difflib `find_longest_match(alo, ahi, blo, bhi)` for an empty junk set. -/
def findLongestMatch (a b : List Char) (b2j : List (Char × List Nat))
    (alo ahi blo bhi : Nat) : FlmState :=
  let st := flmOuter a b2j alo ahi blo bhi
  let st := extendBack a b alo blo st.besti st
  extendFwd a b ahi bhi ahi st

/-- Total size of all matching blocks (difflib `get_matching_blocks`): the
divide-and-conquer over subranges, keeping only the sum of block sizes, which
is independent of the queue discipline and of the final sort/merge of blocks.
Each step pops one queue entry and pushes at most two strictly smaller ones,
and at most `1 + 2*min(|a|,|b|)` entries ever exist, so the fuel used at the
top level is sufficient. -/
def matchingTotal (a b : List Char) (b2j : List (Char × List Nat)) :
    Nat → List (Nat × Nat × Nat × Nat) → Nat
  | 0, _ => 0
  | _ + 1, [] => 0
  | fuel + 1, (alo, ahi, blo, bhi) :: queue =>
    let st := findLongestMatch a b b2j alo ahi blo bhi
    if st.bestsize = 0 then matchingTotal a b b2j fuel queue
    else
      let q := if alo < st.besti ∧ blo < st.bestj then
          (alo, st.besti, blo, st.bestj) :: queue
        else queue
      let q := if st.besti + st.bestsize < ahi ∧ st.bestj + st.bestsize < bhi then
          (st.besti + st.bestsize, ahi, st.bestj + st.bestsize, bhi) :: q
        else q
      st.bestsize + matchingTotal a b b2j fuel q

/-- `SequenceMatcher(None, a, b).ratio()`. -/
def ratioQ (a b : List Char) : ℚ :=
  calcRatioQ
    (matchingTotal a b (chainB b) (2 * (a.length + b.length) + 2)
      [(0, a.length, 0, b.length)])
    (a.length + b.length)

/-- `ReconciliationMatcher._similar(a, b, threshold)`: lowercase and strip both
inputs (`x.lower().strip() if x else ''`, which equals lowering/stripping also
for the empty string), take the sequence ratio, and return it when it is at
least the threshold, else `0.0`. -/
def similar (a b : String) (threshold : ℚ) : ℚ :=
  let a' := pyStrip (pyLower a.data)
  let b' := pyStrip (pyLower b.data)
  let r := ratioQ a' b'
  if threshold ≤ r then r else 0

/- ## Data model

Embedded from apps/integrations/models.py (TimeEntry),
apps/invoices/models.py (InvoiceLineItem, Invoice) and
apps/reconciliation/models.py (Discrepancy, Reconciliation).  Only the fields
the reconciliation core reads or writes are carried. -/

/-- `integrations.TimeEntry`: all numeric fields are non-null decimals
(`hours`, `rate` and `total` default to 0). -/
structure TimeEntry where
  external_id : String
  date : Nat
  timekeeper_name : String
  description : String
  hours : ℚ
  rate : ℚ
  total : ℚ
  billable : Bool
deriving DecidableEq, Repr

/-- `invoices.InvoiceLineItem`: `date` is nullable, `timekeeper` may be blank,
`hours`/`rate`/`amount` are non-null decimals defaulting to 0. -/
structure LineItem where
  date : Option Nat
  description : String
  timekeeper : String
  hours : ℚ
  rate : ℚ
  amount : ℚ
  matched : Bool
  matched_time_entry_id : String
deriving DecidableEq, Repr

/-- `invoices.Invoice` with its nested line items, restricted to the fields the
reconciliation core reads. -/
structure Invoice where
  invoice_number : String
  client_name : String
  total_amount : ℚ
  line_items : List LineItem
deriving DecidableEq, Repr

/-- `Discrepancy.TYPE_CHOICES`. -/
inductive DType where
  | missing_time | extra_time | rate_mismatch | hours_mismatch
  | amount_mismatch | missing_expense | duplicate | other
deriving DecidableEq, Repr

/-- `Discrepancy.SEVERITY_CHOICES`. -/
inductive Severity where
  | low | medium | high
deriving DecidableEq, Repr

/-- The string stored in the `severity` CharField for each severity value. -/
def severityStr : Severity → String
  | .low => "low"
  | .medium => "medium"
  | .high => "high"

/-- `Discrepancy.STATUS_CHOICES` (resolution status). -/
inductive ResolutionStatus where
  | pending | acknowledged | resolved | ignored
deriving DecidableEq, Repr

/-- `reconciliation.Discrepancy` restricted to the fields the core writes or
the reporter reads.  `expected_value`, `actual_value` and `difference` are
always set by the matcher, so they are carried as plain rationals. -/
structure Discrepancy where
  invoice_line_item : Option LineItem
  time_entry : Option TimeEntry
  discrepancy_type : DType
  severity : Severity
  description : String
  expected_value : ℚ
  actual_value : ℚ
  difference : ℚ
  status : ResolutionStatus
  resolution_note : String
deriving DecidableEq, Repr

/-- `Reconciliation.STATUS_CHOICES`. -/
inductive RunStatus where
  | pending | processing | completed | error
deriving DecidableEq, Repr

/-- The `Reconciliation` session row: status plus the aggregate counters the
run writes. -/
structure Session where
  status : RunStatus
  invoices_count : Nat
  line_items_count : Nat
  matched_count : Nat
  discrepancy_count : Nat
  total_invoice_amount : ℚ
  total_discrepancy_amount : ℚ
deriving DecidableEq, Repr

/-- Python `s[:n]` on a string. -/
def takeStr (n : Nat) (s : String) : String := String.mk (s.data.take n)

/-- Model of Python `str(...)` applied to a Decimal inside the f-string
descriptions (exact Decimal formatting is abstracted by the `ℚ` printer; no
claim depends on these description strings). -/
def qStr (q : ℚ) : String := toString q

/- ## The matcher (apps/reconciliation/services/matcher.py) -/

/-- One bucket-append of `_build_time_entry_lookup`: dict keyed by
`(entry.date, entry.timekeeper_name.lower())`, insertion order preserved both
for keys and within a bucket. -/
def lookupAppend (l : List ((Nat × String) × List TimeEntry)) (key : Nat × String)
    (e : TimeEntry) : List ((Nat × String) × List TimeEntry) :=
  match l with
  | [] => [(key, [e])]
  | (k, es) :: rest =>
    if k = key then (k, es ++ [e]) :: rest else (k, es) :: lookupAppend rest key e

/-- Python `str.lower()` at `String` type. -/
def pyLowerStr (s : String) : String := String.mk (pyLower s.data)

/-- `ReconciliationMatcher._build_time_entry_lookup`. -/
def buildTimeEntryLookup (entries : List TimeEntry) :
    List ((Nat × String) × List TimeEntry) :=
  entries.foldl (fun l e => lookupAppend l (e.date, pyLowerStr e.timekeeper_name) e) []

/-- `entry_lookup.get(key, [])`. -/
def lookupGet (l : List ((Nat × String) × List TimeEntry)) (key : Nat × String) :
    List TimeEntry :=
  match l with
  | [] => []
  | (k, es) :: rest => if k = key then es else lookupGet rest key

/-- The per-candidate score of `_find_matching_entry`: description similarity
(no threshold), averaged with an hours bonus only when both hours values are
truthy (Python `if line_item.hours and entry.hours`, i.e. both nonzero);
the bonus is 1.0 when `float(line_item.hours) == float(entry.hours)`,
else 0.5. -/
def candidateScore (li : LineItem) (e : TimeEntry) : ℚ :=
  let score := similar li.description e.description 0
  if li.hours ≠ 0 ∧ e.hours ≠ 0 then
    (score + (if li.hours = e.hours then 1 else 1 / 2)) / 2
  else score

/-- The fuzzy-timekeeper fallback of `_find_matching_entry`: collect, in lookup
insertion order, every bucket sharing the line item's date whose (lowercased)
timekeeper key has truthy `_similar(line_item.timekeeper, key, 0.8)` (a float
is truthy when nonzero). -/
def fuzzyCandidates (tk : String) (d : Nat)
    (l : List ((Nat × String) × List TimeEntry)) : List TimeEntry :=
  l.foldl (fun acc p =>
    if p.1.1 = d ∧ similar tk p.1.2 (8 / 10) ≠ 0 then acc ++ p.2 else acc) []

/-- `ReconciliationMatcher._find_matching_entry`: `None` when the date or the
timekeeper is falsy; exact-key candidates, else fuzzy-timekeeper candidates;
then the best-scoring candidate, tracked left to right, accepted only when the
score is strictly above both the running best (initially 0.0) and 0.5. -/
def findMatchingEntry (li : LineItem)
    (lookup : List ((Nat × String) × List TimeEntry)) : Option TimeEntry :=
  match li.date with
  | none => none
  | some d =>
    if li.timekeeper = "" then none
    else
      let candidates := lookupGet lookup (d, pyLowerStr li.timekeeper)
      let candidates :=
        if candidates = [] then fuzzyCandidates li.timekeeper d lookup else candidates
      if candidates = [] then none
      else
        (candidates.foldl (fun best e =>
          let score := candidateScore li e
          if score > best.1 ∧ score > 1 / 2 then (score, some e) else best)
          ((0 : ℚ), (none : Option TimeEntry))).2

/-- The `rate_mismatch` discrepancy of `_check_value_discrepancies`. -/
def rateMismatchDisc (li : LineItem) (e : TimeEntry) : Discrepancy :=
  { invoice_line_item := some li, time_entry := some e,
    discrepancy_type := .rate_mismatch, severity := .medium,
    description := "Rate mismatch: Invoice $" ++ qStr li.rate ++ "/hr vs System $"
      ++ qStr e.rate ++ "/hr",
    expected_value := e.rate, actual_value := li.rate,
    difference := li.rate - e.rate, status := .pending, resolution_note := "" }

/-- The `hours_mismatch` discrepancy of `_check_value_discrepancies`. -/
def hoursMismatchDisc (li : LineItem) (e : TimeEntry) : Discrepancy :=
  { invoice_line_item := some li, time_entry := some e,
    discrepancy_type := .hours_mismatch, severity := .medium,
    description := "Hours mismatch: Invoice " ++ qStr li.hours ++ "h vs System "
      ++ qStr e.hours ++ "h",
    expected_value := e.hours, actual_value := li.hours,
    difference := li.hours - e.hours, status := .pending, resolution_note := "" }

/-- The `amount_mismatch` discrepancy of `_check_value_discrepancies`. -/
def amountMismatchDisc (li : LineItem) (e : TimeEntry) : Discrepancy :=
  { invoice_line_item := some li, time_entry := some e,
    discrepancy_type := .amount_mismatch, severity := .high,
    description := "Amount mismatch: Invoice $" ++ qStr li.amount ++ " vs System $"
      ++ qStr e.total,
    expected_value := e.total, actual_value := li.amount,
    difference := li.amount - e.total, status := .pending, resolution_note := "" }

/-- `ReconciliationMatcher._check_value_discrepancies`: the three independent
checks, each guarded by Python truthiness of both operands (nonzero decimals)
and a float tolerance (`> 0.01` for rate, `> 0.1` for hours, `> 1.0` for
amount). -/
def checkValueDiscrepancies (li : LineItem) (e : TimeEntry) : List Discrepancy :=
  (if li.rate ≠ 0 ∧ e.rate ≠ 0 ∧ |li.rate - e.rate| > 1 / 100
    then [rateMismatchDisc li e] else [])
  ++ (if li.hours ≠ 0 ∧ e.hours ≠ 0 ∧ |li.hours - e.hours| > 1 / 10
    then [hoursMismatchDisc li e] else [])
  ++ (if li.amount ≠ 0 ∧ e.total ≠ 0 ∧ |li.amount - e.total| > 1
    then [amountMismatchDisc li e] else [])

/-- The `missing_time` discrepancy created by `run` when no match is found. -/
def missingTimeDisc (li : LineItem) : Discrepancy :=
  { invoice_line_item := some li, time_entry := none,
    discrepancy_type := .missing_time, severity := .high,
    description := "No matching time entry found for: " ++ takeStr 100 li.description,
    expected_value := li.amount, actual_value := 0,
    difference := li.amount, status := .pending, resolution_note := "" }

/-- The `extra_time` discrepancy created by `run` for an unbilled entry. -/
def extraTimeDisc (e : TimeEntry) : Discrepancy :=
  { invoice_line_item := none, time_entry := some e,
    discrepancy_type := .extra_time, severity := .medium,
    description := "Unbilled time entry: " ++ takeStr 100 e.description,
    expected_value := 0, actual_value := e.total,
    difference := -e.total, status := .pending, resolution_note := "" }

/- ## The run loop (ReconciliationMatcher.run) -/

/-- The mutable aggregates of `run`, threaded through the invoice /
line-item loops, together with the discrepancies saved so far and the
(updated) line items processed so far. -/
structure RunState where
  total_line_items : Nat
  matched_count : Nat
  discrepancy_count : Nat
  total_invoice_amount : ℚ
  total_discrepancy_amount : ℚ
  discs : List Discrepancy
  items : List LineItem
deriving Repr

def initialRunState : RunState :=
  { total_line_items := 0, matched_count := 0, discrepancy_count := 0,
    total_invoice_amount := 0, total_discrepancy_amount := 0,
    discs := [], items := [] }

/-- The body of the line-item loop of `run`: count the item, try to match it;
on a match mark the item, save the value discrepancies (adding
`abs(difference)` to the running total whenever the difference is truthy);
otherwise save a `missing_time` discrepancy and add the line item's amount to
the running total. -/
def lineItemStep (lookup : List ((Nat × String) × List TimeEntry))
    (st : RunState) (li : LineItem) : RunState :=
  let st := { st with total_line_items := st.total_line_items + 1 }
  match findMatchingEntry li lookup with
  | some m =>
    let li' := { li with matched := true, matched_time_entry_id := m.external_id }
    let ds := checkValueDiscrepancies li' m
    let agg := ds.foldl
      (fun acc d => (acc.1 + 1, acc.2 + if d.difference ≠ 0 then |d.difference| else 0))
      (st.discrepancy_count, st.total_discrepancy_amount)
    { st with matched_count := st.matched_count + 1,
              discrepancy_count := agg.1,
              total_discrepancy_amount := agg.2,
              discs := st.discs ++ ds,
              items := st.items ++ [li'] }
  | none =>
    { st with discrepancy_count := st.discrepancy_count + 1,
              total_discrepancy_amount := st.total_discrepancy_amount + li.amount,
              discs := st.discs ++ [missingTimeDisc li],
              items := st.items ++ [li] }

/-- The body of the invoice loop of `run`: accumulate the invoice total, then
process its line items in order. -/
def invoiceStep (lookup : List ((Nat × String) × List TimeEntry))
    (st : RunState) (inv : Invoice) : RunState :=
  let st := { st with total_invoice_amount := st.total_invoice_amount + inv.total_amount }
  inv.line_items.foldl (lineItemStep lookup) st

/-- The matched-ID set of `_find_unbilled_entries`: the
`matched_time_entry_id` of every line item whose value is truthy (non-empty),
read from the same (updated) line-item objects the run just processed.  The
Python `set` is modelled as a list queried by membership. -/
def matchedIdsOf (items : List LineItem) : List String :=
  (items.filter (fun li => li.matched_time_entry_id ≠ "")).map
    (fun li => li.matched_time_entry_id)

/-- `ReconciliationMatcher._find_unbilled_entries`: every time entry whose
external id is not in the matched-ID set and which is billable, in input
order. -/
def findUnbilledEntries (time_entries : List TimeEntry) (items : List LineItem) :
    List TimeEntry :=
  let matched_ids := matchedIdsOf items
  time_entries.filter (fun e => !(matched_ids.contains e.external_id) && e.billable)

/-- The output of a run: the saved session row, all discrepancies created by
the run (in creation order), and the updated line items. -/
structure RunResult where
  session : Session
  discrepancies : List Discrepancy
  lineItems : List LineItem
deriving Repr

/-- `ReconciliationMatcher.run` on the already-loaded inputs (the status is set
to `processing` first; the embedded pipeline cannot raise, so the run always
reaches the final save with status `completed`).  After the invoice loop the
unbilled entries each yield one `extra_time` discrepancy which increments
`discrepancy_count` but — unlike the line-item phase — adds nothing to
`total_discrepancy_amount`. -/
def runReconciliation (invoices : List Invoice) (time_entries : List TimeEntry) :
    RunResult :=
  let lookup := buildTimeEntryLookup time_entries
  let st := invoices.foldl (invoiceStep lookup) initialRunState
  let extras := (findUnbilledEntries time_entries st.items).map extraTimeDisc
  { session :=
      { status := .completed,
        invoices_count := invoices.length,
        line_items_count := st.total_line_items,
        matched_count := st.matched_count,
        discrepancy_count := st.discrepancy_count + extras.length,
        total_invoice_amount := st.total_invoice_amount,
        total_discrepancy_amount := st.total_discrepancy_amount },
    discrepancies := st.discs ++ extras,
    lineItems := st.items }

/- ## Session derived values and the post-run surface -/

/-- Python `round(x)` (round half to even), on exact rationals. -/
def pyRoundHalfEven (x : ℚ) : ℤ :=
  let f := x.floor
  if x - f < 1 / 2 then f
  else if 1 / 2 < x - f then f + 1
  else if f % 2 = 0 then f else f + 1

/-- Python `round(x, 1)`. -/
def pyRound1 (x : ℚ) : ℚ := (pyRoundHalfEven (10 * x) : ℚ) / 10

/-- The `Reconciliation.match_rate` property:
`0` when `line_items_count == 0`, else
`round(matched_count / line_items_count * 100, 1)`. -/
def matchRate (s : Session) : ℚ :=
  if s.line_items_count = 0 then 0
  else pyRound1 ((s.matched_count : ℚ) / (s.line_items_count : ℚ) * 100)

/-- The full state a stored session exposes to later operations. -/
structure SessionState where
  session : Session
  discrepancies : List Discrepancy
deriving Repr

/-- Every operation the system applies to an *existing* reconciliation session
(apps/reconciliation/views.py): the discrepancy-resolution POST and the
read-only list/detail/report/export/API endpoints.  `ReconciliationMatcher`
itself is constructed only inside `ReconciliationCreateView.post`, on a
session created in the same request, so no operation on an existing session
runs the matcher again. -/
inductive PostCreationOp where
  | resolveDiscrepancy (idx : Nat) (newStatus : ResolutionStatus) (note : String)
  | viewList | viewDetail | viewReport | exportCsv
  | apiList | apiDetail | apiSummary

/-- `DiscrepancyResolveView.post`: update one discrepancy's resolution status
and note (the resolver identity and timestamp are not modelled). -/
def resolveAt (discs : List Discrepancy) (idx : Nat) (ns : ResolutionStatus)
    (note : String) : List Discrepancy :=
  match discs, idx with
  | [], _ => []
  | d :: rest, 0 => { d with status := ns, resolution_note := note } :: rest
  | d :: rest, i + 1 => d :: resolveAt rest i ns note

/-- Effect of each post-creation operation on the stored session state.  The
non-resolution endpoints only render or serialize, so they leave the state
unchanged; the resolution endpoint writes only discrepancy fields. -/
def applyPostCreationOp (op : PostCreationOp) (s : SessionState) : SessionState :=
  match op with
  | .resolveDiscrepancy idx ns note =>
    { s with discrepancies := resolveAt s.discrepancies idx ns note }
  | _ => s

/- ## The reporter (apps/reconciliation/services/reporter.py) -/

/-- The `resolution_status` block of `ReconciliationReporter.generate_summary`:
counts of the session's discrepancies with status `pending`, `resolved` and
`ignored` (these three filters are the only buckets built). -/
def resolutionStatusSummary (discs : List Discrepancy) : Nat × Nat × Nat :=
  ((discs.filter (fun d => d.status = .pending)).length,
   (discs.filter (fun d => d.status = .resolved)).length,
   (discs.filter (fun d => d.status = .ignored)).length)

/-- The `discrepancies_by_severity` block of `generate_summary`. -/
def bySeveritySummary (discs : List Discrepancy) : Nat × Nat × Nat :=
  ((discs.filter (fun d => d.severity = .high)).length,
   (discs.filter (fun d => d.severity = .medium)).length,
   (discs.filter (fun d => d.severity = .low)).length)

/-- Lexicographic (code-point) strict order on character lists: the order a
database applies to the stored `severity` CharField values. -/
def lexLt : List Char → List Char → Bool
  | [], [] => false
  | [], _ :: _ => true
  | _ :: _, [] => false
  | c :: cs, d :: ds =>
    if c.toNat < d.toNat then true
    else if d.toNat < c.toNat then false
    else lexLt cs ds

/-- `a ≤ b` on the stored strings. -/
def strLe (a b : String) : Bool := !(lexLt b.data a.data)

/-- Row order of `generate_csv_report`: `order_by('-severity')`, i.e. the
severity *strings* in descending lexicographic order.  The single-key SQL sort
leaves ties in no specified order; it is modelled as a stable sort, keeping
the stored order within a severity. -/
def csvLe (a b : Discrepancy) : Prop :=
  strLe (severityStr b.severity) (severityStr a.severity) = true

instance : DecidableRel csvLe := fun a b => by
  unfold csvLe
  infer_instance

/-- The ordered data rows of `ReconciliationReporter.generate_csv_report`
(one per discrepancy of the session). -/
def csvRows (discs : List Discrepancy) : List Discrepancy :=
  discs.insertionSort csvLe

/- ## Helper lemmas -/

/-- A foldl preserves any invariant its step preserves. -/
theorem foldl_preserves {α σ : Type _} (P : σ → Prop) (f : σ → α → σ)
    (h : ∀ s a, P s → P (f s a)) :
    ∀ (l : List α) (s : σ), P s → P (l.foldl f s) := by
  intro l
  induction l with
  | nil => intro s hs; exact hs
  | cons a t ih => intro s hs; exact ih (f s a) (h s a hs)

/-- Membership in the output of `_check_value_discrepancies` determines which
of the three discrepancies an element is and that its guard held. -/
theorem mem_checkValueDiscrepancies (li : LineItem) (e : TimeEntry) (d : Discrepancy)
    (hd : d ∈ checkValueDiscrepancies li e) :
    (d = rateMismatchDisc li e ∧ li.rate ≠ 0 ∧ e.rate ≠ 0 ∧ |li.rate - e.rate| > 1 / 100)
    ∨ (d = hoursMismatchDisc li e ∧ li.hours ≠ 0 ∧ e.hours ≠ 0 ∧ |li.hours - e.hours| > 1 / 10)
    ∨ (d = amountMismatchDisc li e ∧ li.amount ≠ 0 ∧ e.total ≠ 0 ∧ |li.amount - e.total| > 1) := by
  unfold checkValueDiscrepancies at hd
  rcases List.mem_append.1 hd with h | h
  · rcases List.mem_append.1 h with h' | h'
    · left
      split at h'
      · next hc =>
          cases h' with
          | head => exact ⟨rfl, hc⟩
          | tail _ h2 => cases h2
      · cases h'
    · right; left
      split at h'
      · next hc =>
          cases h' with
          | head => exact ⟨rfl, hc⟩
          | tail _ h2 => cases h2
      · cases h'
  · right; right
    split at h
    · next hc =>
        cases h with
        | head => exact ⟨rfl, hc⟩
        | tail _ h2 => cases h2
    · cases h

/- ## C2: similarity of two empty strings -/

/-- C2, counterexample: the claim says `similarity("", "") == 0.0`, but
`_similar("", "", t)` returns 1.0 at both thresholds the matcher uses
(difflib defines the ratio of two empty sequences as 1.0). -/
theorem similar_empty_empty_ne_zero :
    similar "" "" 0 ≠ 0 ∧ similar "" "" (8 / 10) ≠ 0 := by
  constructor <;> norm_num [similar, ratioQ, calcRatioQ, pyStrip, pyLower]

/-- C2 (corrected): `_similar` on two empty strings returns 1.0 (for any
threshold the matcher uses), the difflib convention for two empty
sequences. -/
theorem similar_empty_empty_eq_one :
    similar "" "" 0 = 1 ∧ similar "" "" (8 / 10) = 1 := by
  constructor <;> norm_num [similar, ratioQ, calcRatioQ, pyStrip, pyLower]

/- ## C3: the candidate score formula -/

/-- The score formula exactly as the claim states it: the hours bonus is
always averaged in, worth 1.0 when both hours are present (nonzero) and
numerically equal, else 0.5 (also when either is absent). -/
def scoreAsClaimed (li : LineItem) (e : TimeEntry) : ℚ :=
  (similar li.description e.description 0 +
    (if li.hours ≠ 0 ∧ e.hours ≠ 0 ∧ li.hours = e.hours then 1 else 1 / 2)) / 2

/-- The score formula as the code computes it: the average with the hours
bonus is taken only when both hours values are truthy; otherwise the score is
the bare description similarity. -/
def scoreAsCoded (li : LineItem) (e : TimeEntry) : ℚ :=
  if li.hours ≠ 0 ∧ e.hours ≠ 0 then
    (similar li.description e.description 0 + (if li.hours = e.hours then 1 else 1 / 2)) / 2
  else similar li.description e.description 0

def liC3 : LineItem :=
  { date := some 1, description := "a", timekeeper := "jane",
    hours := 0, rate := 0, amount := 0, matched := false, matched_time_entry_id := "" }

def entryC3 : TimeEntry :=
  { external_id := "t1", date := 1, timekeeper_name := "jane", description := "a",
    hours := 3, rate := 0, total := 0, billable := true }

/-- C3, counterexample: a line item whose hours value is absent (0) scores
`descriptionSimilarity` alone, not `(descriptionSimilarity + 0.5) / 2` as the
claim predicts: with identical one-character descriptions the code scores 1.0
while the claimed formula gives 0.75. -/
theorem candidate_score_counterexample :
    liC3.date = some 1 ∧ liC3.timekeeper ≠ "" ∧
    candidateScore liC3 entryC3 ≠ scoreAsClaimed liC3 entryC3 := by
  refine ⟨rfl, by decide, ?_⟩
  have hl : pyStrip (pyLower "a".data) = "a".data := by decide
  have hm : matchingTotal "a".data "a".data (chainB "a".data) 6 [(0, 1, 0, 1)] = 1 := by
    decide
  have hs : similar "a" "a" 0 = 1 := by
    norm_num [similar, ratioQ, calcRatioQ, hl, hm]
  show candidateScore liC3 entryC3 ≠ scoreAsClaimed liC3 entryC3
  unfold candidateScore scoreAsClaimed liC3 entryC3
  norm_num [hs]

/-- C3 (amended): for every line item and candidate, the score equals
`(descriptionSimilarity + hoursBonus) / 2` with bonus 1.0 for equal nonzero
hours and 0.5 for unequal nonzero hours, but only when both hours values are
present (nonzero); when either hours value is absent the score is the bare
description similarity. -/
theorem candidate_score_amended (li : LineItem) (e : TimeEntry) :
    candidateScore li e = scoreAsCoded li e := by
  unfold candidateScore scoreAsCoded
  split <;> rfl

/- ## C4: terminal session statuses -/

/-- C4 (confirmed): once a stored session is `completed` (or `error`), no
operation the system applies to an existing session changes its status —
the matcher is only ever run from `ReconciliationCreateView.post` on the
session it has just created, and every other endpoint either only reads the
session or writes only discrepancy resolution fields. -/
theorem terminal_status_never_changes (op : PostCreationOp) (s : SessionState)
    (_h : s.session.status = RunStatus.completed ∨ s.session.status = RunStatus.error) :
    (applyPostCreationOp op s).session.status = s.session.status := by
  cases op <;> rfl

def completedStateC4 : SessionState :=
  { session :=
      { status := .completed, invoices_count := 1, line_items_count := 1,
        matched_count := 1, discrepancy_count := 0,
        total_invoice_amount := 100, total_discrepancy_amount := 0 },
    discrepancies := [] }

/-- C4, witness: resolving a discrepancy on a concrete completed session
leaves the status `completed`. -/
theorem terminal_status_never_changes_witness :
    (completedStateC4.session.status = RunStatus.completed ∨
      completedStateC4.session.status = RunStatus.error) ∧
    (applyPostCreationOp (PostCreationOp.resolveDiscrepancy 0 .resolved "ok")
        completedStateC4).session.status = completedStateC4.session.status :=
  ⟨Or.inl rfl,
    terminal_status_never_changes (PostCreationOp.resolveDiscrepancy 0 .resolved "ok")
      completedStateC4 (Or.inl rfl)⟩

/- ## C6: the resolution-status buckets of the summary -/

def ackDiscC6 : Discrepancy :=
  { invoice_line_item := none, time_entry := none,
    discrepancy_type := .missing_time, severity := .high, description := "d",
    expected_value := 100, actual_value := 0, difference := 100,
    status := .acknowledged, resolution_note := "" }

/-- C6, counterexample: a session whose single discrepancy has resolution
status `acknowledged` is counted in no bucket of the summary's
`resolution_status` block, so the bucket counts (0) do not sum to the number
of discrepancies (1). -/
theorem resolution_buckets_counterexample :
    ¬ ((resolutionStatusSummary [ackDiscC6]).1 + (resolutionStatusSummary [ackDiscC6]).2.1
        + (resolutionStatusSummary [ackDiscC6]).2.2 = [ackDiscC6].length) := by
  decide

/-- C6 (corrected): the summary's `resolution_status` block has buckets only
for `pending`, `resolved` and `ignored`; each discrepancy with one of those
three statuses is counted in exactly one bucket, and the bucket counts sum to
the number of discrepancies whose status is not `acknowledged` (an
`acknowledged` discrepancy is counted nowhere). -/
theorem resolution_buckets_sum (discs : List Discrepancy) :
    (resolutionStatusSummary discs).1 + (resolutionStatusSummary discs).2.1
      + (resolutionStatusSummary discs).2.2
      = (discs.filter (fun d => d.status ≠ ResolutionStatus.acknowledged)).length := by
  induction discs with
  | nil => rfl
  | cons d rest ih =>
    cases hd : d.status <;>
      simp [resolutionStatusSummary, List.filter_cons, hd] at ih ⊢ <;> omega

/- ## C7: line items with no date or no timekeeper -/

/-- C7 (confirmed): a line item whose date is absent or whose timekeeper is
blank is never matched (`_find_matching_entry` returns `None` before looking
at any candidate), and the run then records exactly one `missing_time`
discrepancy (severity `high`) for it. -/
theorem no_anchor_no_match (li : LineItem)
    (lookup : List ((Nat × String) × List TimeEntry)) (st : RunState)
    (h : li.date = none ∨ li.timekeeper = "") :
    findMatchingEntry li lookup = none ∧
    (lineItemStep lookup st li).discs = st.discs ++ [missingTimeDisc li] ∧
    (missingTimeDisc li).discrepancy_type = DType.missing_time ∧
    (missingTimeDisc li).severity = Severity.high := by
  have hm : findMatchingEntry li lookup = none := by
    rcases h with h | h
    · unfold findMatchingEntry
      rw [h]
    · unfold findMatchingEntry
      cases li.date with
      | none => rfl
      | some d => simp [h]
  refine ⟨hm, ?_, rfl, rfl⟩
  unfold lineItemStep
  rw [hm]

def liC7 : LineItem :=
  { date := none, description := "research", timekeeper := "jane",
    hours := 1, rate := 200, amount := 200, matched := false,
    matched_time_entry_id := "" }

/-- C7, witness: a concrete line item with no date yields no match and one
`missing_time` discrepancy. -/
theorem no_anchor_no_match_witness :
    (liC7.date = none ∨ liC7.timekeeper = "") ∧
    (findMatchingEntry liC7 [] = none ∧
      (lineItemStep [] initialRunState liC7).discs
        = initialRunState.discs ++ [missingTimeDisc liC7] ∧
      (missingTimeDisc liC7).discrepancy_type = DType.missing_time ∧
      (missingTimeDisc liC7).severity = Severity.high) :=
  ⟨Or.inl rfl, no_anchor_no_match liC7 [] initialRunState (Or.inl rfl)⟩

/- ## C10: zero numeric values are treated as absent -/

/-- C10 (confirmed): a 0 value is falsy in Python, so a 0 hours value on
either side makes the candidate score the bare description similarity (no
hours term averaged in) and suppresses the `hours_mismatch` check even when
the other side is nonzero; likewise a 0 rate suppresses `rate_mismatch` and a
0 line amount or 0 entry total suppresses `amount_mismatch`. -/
theorem zero_values_treated_as_absent (li : LineItem) (e : TimeEntry) :
    ((li.hours = 0 ∨ e.hours = 0) →
      candidateScore li e = similar li.description e.description 0 ∧
      ∀ d ∈ checkValueDiscrepancies li e, d.discrepancy_type ≠ DType.hours_mismatch) ∧
    ((li.rate = 0 ∨ e.rate = 0) →
      ∀ d ∈ checkValueDiscrepancies li e, d.discrepancy_type ≠ DType.rate_mismatch) ∧
    ((li.amount = 0 ∨ e.total = 0) →
      ∀ d ∈ checkValueDiscrepancies li e, d.discrepancy_type ≠ DType.amount_mismatch) := by
  refine ⟨fun h => ⟨?_, fun d hd => ?_⟩, fun h d hd => ?_, fun h d hd => ?_⟩
  · unfold candidateScore
    rw [if_neg]
    rintro ⟨h1, h2⟩
    rcases h with h | h
    · exact h1 h
    · exact h2 h
  · rcases mem_checkValueDiscrepancies li e d hd with ⟨hd', _⟩ | ⟨hd', h1, h2, _⟩ | ⟨hd', _⟩
    · simp [hd', rateMismatchDisc]
    · rcases h with h | h
      · exact absurd h h1
      · exact absurd h h2
    · simp [hd', amountMismatchDisc]
  · rcases mem_checkValueDiscrepancies li e d hd with ⟨hd', h1, h2, _⟩ | ⟨hd', _⟩ | ⟨hd', _⟩
    · rcases h with h | h
      · exact absurd h h1
      · exact absurd h h2
    · simp [hd', hoursMismatchDisc]
    · simp [hd', amountMismatchDisc]
  · rcases mem_checkValueDiscrepancies li e d hd with ⟨hd', _⟩ | ⟨hd', _⟩ | ⟨hd', h1, h2, _⟩
    · simp [hd', rateMismatchDisc]
    · simp [hd', hoursMismatchDisc]
    · rcases h with h | h
      · exact absurd h h1
      · exact absurd h h2

def liC10 : LineItem :=
  { date := some 1, description := "b", timekeeper := "jane",
    hours := 0, rate := 0, amount := 0, matched := false,
    matched_time_entry_id := "" }

def entryC10 : TimeEntry :=
  { external_id := "t2", date := 1, timekeeper_name := "jane", description := "b",
    hours := 2, rate := 250, total := 500, billable := true }

/-- C10, witness: with a concrete line item whose hours, rate and amount are
all 0 against an entry with nonzero hours, rate and total, no mismatch check
fires and the score is the bare description similarity. -/
theorem zero_values_treated_as_absent_witness :
    (candidateScore liC10 entryC10 = similar liC10.description entryC10.description 0 ∧
      ∀ d ∈ checkValueDiscrepancies liC10 entryC10,
        d.discrepancy_type ≠ DType.hours_mismatch) ∧
    (∀ d ∈ checkValueDiscrepancies liC10 entryC10,
      d.discrepancy_type ≠ DType.rate_mismatch) ∧
    (∀ d ∈ checkValueDiscrepancies liC10 entryC10,
      d.discrepancy_type ≠ DType.amount_mismatch) :=
  ⟨(zero_values_treated_as_absent liC10 entryC10).1 (Or.inl rfl),
   (zero_values_treated_as_absent liC10 entryC10).2.1 (Or.inl rfl),
   (zero_values_treated_as_absent liC10 entryC10).2.2 (Or.inl rfl)⟩

/- ## C5: CSV export row order -/

theorem sevStrLe_total (x y : Severity) :
    strLe (severityStr x) (severityStr y) = true ∨
    strLe (severityStr y) (severityStr x) = true := by
  cases x <;> cases y <;> decide

theorem sevStrLe_trans (x y z : Severity)
    (h1 : strLe (severityStr x) (severityStr y) = true)
    (h2 : strLe (severityStr y) (severityStr z) = true) :
    strLe (severityStr x) (severityStr z) = true := by
  revert h1 h2
  cases x <;> cases y <;> cases z <;> decide

instance : IsTotal Discrepancy csvLe :=
  ⟨fun a b => by
    unfold csvLe
    exact sevStrLe_total b.severity a.severity⟩

instance : IsTrans Discrepancy csvLe :=
  ⟨fun a b c h1 h2 => by
    unfold csvLe at h1 h2 ⊢
    exact sevStrLe_trans c.severity b.severity a.severity h2 h1⟩

/-- The severity rank the claim's "severity descending" refers to:
high above medium above low. -/
def sevRankSpec : Severity → Nat
  | .high => 2
  | .medium => 1
  | .low => 0

def highDiscC5 : Discrepancy :=
  { invoice_line_item := none, time_entry := none,
    discrepancy_type := .missing_time, severity := .high, description := "h",
    expected_value := 100, actual_value := 0, difference := 100,
    status := .pending, resolution_note := "" }

def medDiscC5 : Discrepancy :=
  { invoice_line_item := none, time_entry := none,
    discrepancy_type := .extra_time, severity := .medium, description := "m",
    expected_value := 0, actual_value := 50, difference := -50,
    status := .pending, resolution_note := "" }

/-- C5, counterexample: `order_by('-severity')` sorts the severity *strings*
descending, and "medium" > "low" > "high" lexicographically, so on a session
holding a high discrepancy created before a medium one the CSV rows are not
ordered with high before medium: the medium row comes first. -/
theorem csv_order_counterexample :
    ¬ List.Pairwise
      (fun a b : Discrepancy => sevRankSpec b.severity ≤ sevRankSpec a.severity)
      (csvRows [highDiscC5, medDiscC5]) := by
  decide

/-- C5 (corrected): the CSV export emits one row per discrepancy (the rows are
a permutation of the session's discrepancies), ordered by the severity
CharField value in descending lexicographic string order — which puts medium
rows first, then low, then high — and with no further ordering key (ties are
modelled as keeping stored order; the query orders by severity only, so the
claimed creation-order tiebreak does not exist). -/
theorem csv_rows_order (discs : List Discrepancy) :
    (csvRows discs).Perm discs ∧ List.Pairwise csvLe (csvRows discs) :=
  ⟨List.perm_insertionSort csvLe discs, List.sorted_insertionSort csvLe discs⟩

/- ## C9: count invariants and the match rate -/

theorem lineItemStep_counts (lookup : List ((Nat × String) × List TimeEntry))
    (st : RunState) (li : LineItem)
    (h : st.matched_count ≤ st.total_line_items) :
    (lineItemStep lookup st li).matched_count
      ≤ (lineItemStep lookup st li).total_line_items := by
  unfold lineItemStep
  split <;> simp <;> omega

theorem invoiceStep_counts (lookup : List ((Nat × String) × List TimeEntry))
    (st : RunState) (inv : Invoice)
    (h : st.matched_count ≤ st.total_line_items) :
    (invoiceStep lookup st inv).matched_count
      ≤ (invoiceStep lookup st inv).total_line_items := by
  unfold invoiceStep
  exact foldl_preserves (fun s => s.matched_count ≤ s.total_line_items)
    (lineItemStep lookup) (fun s a hs => lineItemStep_counts lookup s a hs)
    inv.line_items
    { st with total_invoice_amount := st.total_invoice_amount + inv.total_amount } h

/-- C9 (confirmed): every session a run produces satisfies
`0 ≤ matched_count ≤ line_items_count`, and its `match_rate` equals
`round(matched_count / line_items_count * 100, 1)` when
`line_items_count > 0` and `0` otherwise. -/
theorem match_rate_invariant (invoices : List Invoice) (es : List TimeEntry) :
    0 ≤ (runReconciliation invoices es).session.matched_count ∧
    (runReconciliation invoices es).session.matched_count
      ≤ (runReconciliation invoices es).session.line_items_count ∧
    matchRate (runReconciliation invoices es).session
      = (if 0 < (runReconciliation invoices es).session.line_items_count then
          pyRound1 (((runReconciliation invoices es).session.matched_count : ℚ)
            / ((runReconciliation invoices es).session.line_items_count : ℚ) * 100)
        else 0) := by
  refine ⟨Nat.zero_le _, ?_, ?_⟩
  · simp only [runReconciliation]
    exact foldl_preserves (fun s => s.matched_count ≤ s.total_line_items)
      (invoiceStep (buildTimeEntryLookup es))
      (fun s a hs => invoiceStep_counts (buildTimeEntryLookup es) s a hs)
      invoices initialRunState (Nat.le_refl 0)
  · rcases Nat.eq_zero_or_pos (runReconciliation invoices es).session.line_items_count
      with h | h
    · rw [matchRate, if_pos h, if_neg (by omega)]
    · rw [matchRate, if_neg (by omega), if_pos h]

/- ## C1: total_discrepancy_amount -/

/-- What one saved discrepancy adds to the running
`total_discrepancy_amount` in `run`: the (signed) line-item amount for a
`missing_time` discrepancy, `abs(difference)` (when truthy) for the three
value-mismatch discrepancies, and nothing for an `extra_time` discrepancy. -/
def discAmountContribution (d : Discrepancy) : ℚ :=
  match d.discrepancy_type with
  | .missing_time => d.difference
  | .rate_mismatch => if d.difference ≠ 0 then |d.difference| else 0
  | .hours_mismatch => if d.difference ≠ 0 then |d.difference| else 0
  | .amount_mismatch => if d.difference ≠ 0 then |d.difference| else 0
  | _ => 0

theorem guard_abs (x : ℚ) : (if x ≠ 0 then |x| else 0) = |x| := by
  split
  · rfl
  · simp_all

theorem guard_abs_flip (x : ℚ) : (if x = 0 then 0 else |x|) = |x| := by
  split <;> simp_all

theorem aggFoldEq (ds : List Discrepancy) : ∀ (c : Nat) (t : ℚ),
    ds.foldl
      (fun acc d => (acc.1 + 1, acc.2 + if d.difference ≠ 0 then |d.difference| else 0))
      (c, t)
      = (c + ds.length,
         t + (ds.map (fun d => if d.difference ≠ 0 then |d.difference| else 0)).sum) := by
  induction ds with
  | nil => intro c t; simp
  | cons d rest ih =>
    intro c t
    simp only [List.foldl_cons, ih, List.map_cons, List.sum_cons, List.length_cons,
      Prod.mk.injEq]
    constructor
    · omega
    · ring

theorem contribution_of_check (li : LineItem) (e : TimeEntry) (d : Discrepancy)
    (hd : d ∈ checkValueDiscrepancies li e) :
    discAmountContribution d = if d.difference ≠ 0 then |d.difference| else 0 := by
  rcases mem_checkValueDiscrepancies li e d hd with ⟨hd', _⟩ | ⟨hd', _⟩ | ⟨hd', _⟩ <;>
    subst hd' <;> rfl

theorem lineItemStep_amount (lookup : List ((Nat × String) × List TimeEntry))
    (st : RunState) (li : LineItem)
    (h : st.total_discrepancy_amount = (st.discs.map discAmountContribution).sum) :
    (lineItemStep lookup st li).total_discrepancy_amount
      = ((lineItemStep lookup st li).discs.map discAmountContribution).sum := by
  unfold lineItemStep
  split
  · next m _ =>
    have hmap :
        ((checkValueDiscrepancies
            { li with matched := true, matched_time_entry_id := m.external_id } m).map
          discAmountContribution)
          = ((checkValueDiscrepancies
              { li with matched := true, matched_time_entry_id := m.external_id } m).map
            (fun d => if d.difference ≠ 0 then |d.difference| else 0)) :=
      List.map_congr_left (fun d hd => contribution_of_check _ _ d hd)
    have hagg := aggFoldEq
      (checkValueDiscrepancies
        { li with matched := true, matched_time_entry_id := m.external_id } m)
      st.discrepancy_count st.total_discrepancy_amount
    simp only [hagg]
    simp [h, hmap]
  · next _ =>
    simp [h, discAmountContribution, missingTimeDisc]

theorem invoiceStep_amount (lookup : List ((Nat × String) × List TimeEntry))
    (st : RunState) (inv : Invoice)
    (h : st.total_discrepancy_amount = (st.discs.map discAmountContribution).sum) :
    (invoiceStep lookup st inv).total_discrepancy_amount
      = ((invoiceStep lookup st inv).discs.map discAmountContribution).sum := by
  unfold invoiceStep
  exact foldl_preserves
    (fun s => s.total_discrepancy_amount = (s.discs.map discAmountContribution).sum)
    (lineItemStep lookup) (fun s a hs => lineItemStep_amount lookup s a hs)
    inv.line_items
    { st with total_invoice_amount := st.total_invoice_amount + inv.total_amount } h

theorem extras_contribution_zero (u : List TimeEntry) :
    (u.map (fun e => discAmountContribution (extraTimeDisc e))).sum = 0 := by
  induction u with
  | nil => rfl
  | cons e rest ih => simp [extraTimeDisc, discAmountContribution, ih]

/-- Splitting the per-discrepancy contributions by discrepancy type. -/
theorem contribution_split (l : List Discrepancy) :
    (l.map discAmountContribution).sum
      = ((l.filter (fun d => d.discrepancy_type = DType.missing_time)).map
          (fun d => d.difference)).sum
        + ((l.filter (fun d => d.discrepancy_type = DType.rate_mismatch ∨
              d.discrepancy_type = DType.hours_mismatch ∨
              d.discrepancy_type = DType.amount_mismatch)).map
          (fun d => |d.difference|)).sum := by
  induction l with
  | nil => simp
  | cons d rest ih =>
    cases hd : d.discrepancy_type <;>
      simp [List.filter_cons, hd, discAmountContribution, guard_abs, guard_abs_flip, ih] <;>
      ring

def entryC1 : TimeEntry :=
  { external_id := "t1", date := 1, timekeeper_name := "jane", description := "w",
    hours := 1, rate := 100, total := 100, billable := true }

/-- C1, counterexample: a run over no invoices and one billable time entry
creates one `extra_time` discrepancy with difference −100 but leaves
`total_discrepancy_amount` at 0, so the session total does not equal the sum
of the absolute differences over all of the run's discrepancies. -/
theorem total_discrepancy_amount_counterexample :
    ¬ ((runReconciliation [] [entryC1]).session.total_discrepancy_amount
        = (((runReconciliation [] [entryC1]).discrepancies).map
            (fun d => |d.difference|)).sum) := by
  norm_num [runReconciliation, initialRunState, findUnbilledEntries, matchedIdsOf,
    buildTimeEntryLookup, lookupAppend, extraTimeDisc, entryC1]

/-- C1 (corrected): for every run, `total_discrepancy_amount` equals the sum
of the signed differences of the run's `missing_time` discrepancies plus the
sum of the absolute differences of its rate/hours/amount-mismatch
discrepancies; the `extra_time` discrepancies contribute nothing to it. -/
theorem total_discrepancy_amount_characterization
    (invoices : List Invoice) (es : List TimeEntry) :
    (runReconciliation invoices es).session.total_discrepancy_amount
      = (((runReconciliation invoices es).discrepancies.filter
            (fun d => d.discrepancy_type = DType.missing_time)).map
          (fun d => d.difference)).sum
        + (((runReconciliation invoices es).discrepancies.filter
            (fun d => d.discrepancy_type = DType.rate_mismatch ∨
              d.discrepancy_type = DType.hours_mismatch ∨
              d.discrepancy_type = DType.amount_mismatch)).map
          (fun d => |d.difference|)).sum := by
  have hinv : (invoices.foldl (invoiceStep (buildTimeEntryLookup es)) initialRunState).total_discrepancy_amount
      = ((invoices.foldl (invoiceStep (buildTimeEntryLookup es)) initialRunState).discs.map
          discAmountContribution).sum :=
    foldl_preserves
      (fun s => s.total_discrepancy_amount = (s.discs.map discAmountContribution).sum)
      (invoiceStep (buildTimeEntryLookup es))
      (fun s a hs => invoiceStep_amount (buildTimeEntryLookup es) s a hs)
      invoices initialRunState rfl
  simp only [runReconciliation]
  rw [← contribution_split]
  simp [hinv, Function.comp_def, extras_contribution_zero]

/- ## C8: the extra_time discrepancies -/

theorem check_disc_not_extra (li : LineItem) (e : TimeEntry) (d : Discrepancy)
    (hd : d ∈ checkValueDiscrepancies li e) :
    d.discrepancy_type ≠ DType.extra_time := by
  rcases mem_checkValueDiscrepancies li e d hd with ⟨hd', _⟩ | ⟨hd', _⟩ | ⟨hd', _⟩ <;>
    subst hd' <;> simp [rateMismatchDisc, hoursMismatchDisc, amountMismatchDisc]

theorem lineItemStep_no_extra (lookup : List ((Nat × String) × List TimeEntry))
    (st : RunState) (li : LineItem)
    (h : ∀ d ∈ st.discs, d.discrepancy_type ≠ DType.extra_time) :
    ∀ d ∈ (lineItemStep lookup st li).discs,
      d.discrepancy_type ≠ DType.extra_time := by
  unfold lineItemStep
  split
  · next m _ =>
    intro d hd
    rcases List.mem_append.1 hd with hd' | hd'
    · exact h d hd'
    · exact check_disc_not_extra _ m d hd'
  · next _ =>
    intro d hd
    rcases List.mem_append.1 hd with hd' | hd'
    · exact h d hd'
    · cases hd' with
      | head => simp [missingTimeDisc]
      | tail _ h2 => cases h2

theorem invoiceStep_no_extra (lookup : List ((Nat × String) × List TimeEntry))
    (st : RunState) (inv : Invoice)
    (h : ∀ d ∈ st.discs, d.discrepancy_type ≠ DType.extra_time) :
    ∀ d ∈ (invoiceStep lookup st inv).discs,
      d.discrepancy_type ≠ DType.extra_time := by
  unfold invoiceStep
  exact foldl_preserves
    (fun s => ∀ d ∈ s.discs, d.discrepancy_type ≠ DType.extra_time)
    (lineItemStep lookup) (fun s a hs => lineItemStep_no_extra lookup s a hs)
    inv.line_items
    { st with total_invoice_amount := st.total_invoice_amount + inv.total_amount } h

theorem filter_extra_append (l : List Discrepancy) (u : List TimeEntry)
    (h : ∀ d ∈ l, d.discrepancy_type ≠ DType.extra_time) :
    ((l ++ u.map extraTimeDisc).filter
        (fun d => d.discrepancy_type = DType.extra_time))
      = u.map extraTimeDisc := by
  rw [List.filter_append]
  have h1 : (l.filter (fun d => d.discrepancy_type = DType.extra_time)) = [] := by
    rw [List.filter_eq_nil_iff]
    intro d hd
    simpa using h d hd
  have h2 : ((u.map extraTimeDisc).filter
      (fun d => d.discrepancy_type = DType.extra_time)) = u.map extraTimeDisc := by
    rw [List.filter_eq_self]
    intro d hd
    rcases List.mem_map.1 hd with ⟨e, _, he⟩
    subst he
    simp [extraTimeDisc]
  rw [h1, h2, List.nil_append]

/-- C8 (confirmed): the `extra_time` discrepancies of a run are exactly one
per billable time entry whose external id is absent from the matched-ID set
(in input order, so exactly once per such entry), and each such discrepancy
has severity `medium`, expected value 0, actual value the entry's total and
difference minus the entry's total; non-billable or matched entries produce
none, and no other phase of the run creates an `extra_time` discrepancy. -/
theorem extra_time_characterization (invoices : List Invoice) (es : List TimeEntry) :
    ((runReconciliation invoices es).discrepancies.filter
        (fun d => d.discrepancy_type = DType.extra_time))
      = (findUnbilledEntries es (runReconciliation invoices es).lineItems).map
          extraTimeDisc
    ∧ (∀ e : TimeEntry,
        (extraTimeDisc e).severity = Severity.medium ∧
        (extraTimeDisc e).expected_value = 0 ∧
        (extraTimeDisc e).actual_value = e.total ∧
        (extraTimeDisc e).difference = -e.total) := by
  constructor
  · have hno : ∀ d ∈ (invoices.foldl (invoiceStep (buildTimeEntryLookup es))
        initialRunState).discs, d.discrepancy_type ≠ DType.extra_time :=
      foldl_preserves
        (fun s => ∀ d ∈ s.discs, d.discrepancy_type ≠ DType.extra_time)
        (invoiceStep (buildTimeEntryLookup es))
        (fun s a hs => invoiceStep_no_extra (buildTimeEntryLookup es) s a hs)
        invoices initialRunState (fun d hd => absurd hd (List.not_mem_nil d))
    simp only [runReconciliation]
    exact filter_extra_append _ _ hno
  · intro e
    exact ⟨rfl, rfl, rfl, rfl⟩
